import Mathlib

/-!
Shallow embedding of the CloudMetar METAR decoder (`src/hello.go`).

The Go program drives a fixed table of regular expressions (`parserStrings`)
over the report text with `regexp.FindStringSubmatchIndex` /
`FindAllStringSubmatchIndex` and fills a caller-owned `Metar` record step by
step.  Go's `regexp` package uses leftmost-first ("Perl") match semantics:
the match starts as early as possible, and among the matches at that start
the one a backtracking search would find first is returned.  We embed this
with a small backtracking matcher over a regex syntax tree: alternation
prefers the left branch, `?`/`*`/`+` are greedy, numbered groups capture
spans (last write wins, as in Go/Perl), and a repeated group that matched in
an earlier iteration keeps its capture.  Stars only ever wrap non-nullable
bodies in the source patterns, so a fuel of `length + 1` (one iteration per
consumed character) is exact.

Strings are `List Char` with absolute positions, mirroring Go's byte slices
on the (ASCII) report text; `rawMetar[i:j]` becomes `subL`/`subS`, and the
out-of-range slice panic that Go raises on a negative index is a dedicated
`ParseResult.oob` outcome.
-/

namespace CloudMetar

/-- Regex syntax: literal string, character class (list of inclusive ranges),
sequencing, left-preferring alternation, greedy option, greedy star, and a
numbered capturing group. -/
inductive RE where
  | str : List Char → RE
  | cls : List (Char × Char) → RE
  | seq : RE → RE → RE
  | alt : RE → RE → RE
  | opt : RE → RE
  | star : RE → RE
  | group : Nat → RE → RE
deriving Repr

/-- Capture list: (group number, start, stop), most recent write first. -/
abbrev Caps := List (Nat × Nat × Nat)

/-- Character class membership (inclusive code-point ranges). -/
def clsMem (rs : List (Char × Char)) (c : Char) : Bool :=
  rs.any fun r => decide (r.1.toNat ≤ c.toNat ∧ c.toNat ≤ r.2.toNat)

/-- Does the literal word `w` occur in `cs` starting at position `p`? -/
def strAt (cs : List Char) (p : Nat) (w : List Char) : Bool :=
  match w with
  | [] => true
  | c :: w' =>
    match cs.get? p with
    | some c' => if c' = c then strAt cs (p + 1) w' else false
    | none => false

/-- Greedy star loop: `body` yields the continuation positions of one
iteration; iterate while progress is made (all source star bodies consume at
least one character), preferring more iterations, with `fuel` bounding the
iteration count. -/
def starM (body : List Char → Nat → Caps → List (Nat × Caps)) :
    Nat → List Char → Nat → Caps → List (Nat × Caps)
  | 0, _, p, k => [(p, k)]
  | f + 1, cs, p, k =>
    (((body cs p k).filter fun r => p < r.1).flatMap fun r =>
      starM body f cs r.1 r.2) ++ [(p, k)]

/-- All ways to match `re` at position `p`, in backtracking preference
order, each with its end position and captures. -/
def reM (fuel : Nat) : RE → List Char → Nat → Caps → List (Nat × Caps)
  | .str w, cs, p, k => if strAt cs p w then [(p + w.length, k)] else []
  | .cls rs, cs, p, k =>
    match cs.get? p with
    | some c => if clsMem rs c then [(p + 1, k)] else []
    | none => []
  | .seq a b, cs, p, k =>
    (reM fuel a cs p k).flatMap fun r => reM fuel b cs r.1 r.2
  | .alt a b, cs, p, k => reM fuel a cs p k ++ reM fuel b cs p k
  | .opt a, cs, p, k => reM fuel a cs p k ++ [(p, k)]
  | .star a, cs, p, k => starM (reM fuel a) fuel cs p k
  | .group g a, cs, p, k =>
    (reM fuel a cs p k).map fun r => (r.1, (g, p, r.1) :: r.2)

/-- Preferred match of `re` at position `p` (end position and captures). -/
def matchAt (re : RE) (cs : List Char) (p : Nat) : Option (Nat × Caps) :=
  (reM (cs.length + 1) re cs p []).head?

/-- Anchored find (`^`-patterns): Go returns the submatch index array; we
return the full-match end and the captures. -/
def matchAnch (re : RE) (cs : List Char) : Option (Nat × Caps) :=
  matchAt re cs 0

/-- Leftmost match at or after position `p`: (start, end, captures). -/
def scanFrom : Nat → RE → List Char → Nat → Option (Nat × Nat × Caps)
  | 0, _, _, _ => none
  | f + 1, re, cs, p =>
    match matchAt re cs p with
    | some (e, k) => some (p, e, k)
    | none => if p < cs.length then scanFrom f re cs (p + 1) else none

/-- Unanchored find, as Go `FindStringSubmatchIndex` on a `^`-less pattern. -/
def reFind (re : RE) (cs : List Char) : Option (Nat × Nat × Caps) :=
  scanFrom (cs.length + 1) re cs 0

/-- Successive non-overlapping leftmost matches from position `p`, as Go
`FindAllStringSubmatchIndex` (an empty match advances by one). -/
def findAllFrom : Nat → RE → List Char → Nat → List (Nat × Nat × Caps)
  | 0, _, _, _ => []
  | f + 1, re, cs, p =>
    match scanFrom (cs.length + 1) re cs p with
    | none => []
    | some (s, e, k) =>
      (s, e, k) :: findAllFrom f re cs (if s = e then e + 1 else e)

/-- All matches of `re` in `cs`, left to right. -/
def reFindAll (re : RE) (cs : List Char) : List (Nat × Nat × Caps) :=
  findAllFrom (cs.length + 1) re cs 0

/-- Look up the span captured by group `g` (Go: `idx[2g], idx[2g+1]`,
`none` standing for the `-1, -1` of an unmatched group). -/
def capRange (k : Caps) (g : Nat) : Option (Nat × Nat) :=
  (k.find? fun t => t.1 = g).map fun t => (t.2.1, t.2.2)

/-- Go slice `cs[i:j]` as a character list (indices from a reported match
are always in range). -/
def subL (cs : List Char) (i j : Nat) : List Char :=
  (cs.drop i).take (j - i)

/-- Go slice `cs[i:j]` as a `String`. -/
def subS (cs : List Char) (i j : Nat) : String :=
  ⟨subL cs i j⟩

/-- ASCII decimal digit test. -/
def isDig (c : Char) : Bool :=
  decide (48 ≤ c.toNat ∧ c.toNat ≤ 57)

/-- Value of a non-empty all-digit string, `none` otherwise. -/
def digitsAux : List Char → Nat → Option Nat
  | [], acc => some acc
  | c :: t, acc =>
    if isDig c then digitsAux t (acc * 10 + (c.toNat - 48)) else none

/-- Value of a non-empty all-digit string, `none` otherwise. -/
def digitsVal : List Char → Option Nat
  | [] => none
  | l => digitsAux l 0

/-- Go `strconv.Atoi` on a 64-bit platform: optional sign, then a
non-empty run of digits and nothing else; any other content is a syntax
error and a value outside the `int` range (above `2^63 - 1`, or below
`-2^63` after a `-` sign) is a range error (`ErrRange`) — both are
conversion errors (`none`). -/
def goAtoi (s : List Char) : Option Int :=
  match s with
  | '-' :: t =>
    (digitsVal t).bind fun n =>
      if (n : Int) ≤ 2 ^ 63 then some (-(n : Int)) else none
  | '+' :: t =>
    (digitsVal t).bind fun n =>
      if (n : Int) < 2 ^ 63 then some (n : Int) else none
  | t =>
    (digitsVal t).bind fun n =>
      if (n : Int) < 2 ^ 63 then some (n : Int) else none

/-- Exactly two digits, returning their value and the rest. -/
def num2 : List Char → Option (Nat × List Char)
  | a :: b :: t =>
    if isDig a && isDig b then some ((a.toNat - 48) * 10 + (b.toNat - 48), t)
    else none
  | _ => none

/-- Exactly four digits, returning their value and the rest. -/
def num4 (l : List Char) : Option (Nat × List Char) :=
  match num2 l with
  | some (hi, t) =>
    match num2 t with
    | some (lo, t') => some (hi * 100 + lo, t')
    | none => none
  | none => none

/-- One or two digits, as Go's non-fixed-width `getnum` for the hour slot
of the layout: two digits when the second character is also a digit,
otherwise one. -/
def num12 : List Char → Option (Nat × List Char)
  | [] => none
  | [a] => if isDig a then some (a.toNat - 48, []) else none
  | a :: b :: t =>
    if isDig a then
      if isDig b then some ((a.toNat - 48) * 10 + (b.toNat - 48), t)
      else some (a.toNat - 48, b :: t)
    else none

/-- Expect a literal separator character. -/
def expectC (c : Char) : List Char → Option (List Char)
  | x :: t => if x = c then some t else none
  | [] => none

/-- Gregorian leap year. -/
def isLeap (y : Int) : Bool :=
  y % 4 == 0 && (y % 100 != 0 || y % 400 == 0)

/-- Days in a month (month 1..12). -/
def daysInMonth (y : Int) (m : Nat) : Nat :=
  if m = 2 then (if isLeap y then 29 else 28)
  else if m = 4 ∨ m = 6 ∨ m = 9 ∨ m = 11 then 30
  else 31

/-- Go `time.Parse("2006/01/02 15:04", rawDate)`: four-digit year, `/`,
two-digit month, `/`, two-digit day, space, one-or-two-digit hour, `:`,
two-digit minute, end of input; the parsed fields must be in range (month
1..12, day valid for the month, hour below 24, minute below 60).  Returns
`(year, month, day, hour, minute)`. -/
def parseRefDate (s : String) : Option (Int × Int × Int × Int × Int) :=
  match num4 s.data with
  | none => none
  | some (y, r1) =>
    match expectC '/' r1 with
    | none => none
    | some r2 =>
      match num2 r2 with
      | none => none
      | some (mo, r3) =>
        match expectC '/' r3 with
        | none => none
        | some r4 =>
          match num2 r4 with
          | none => none
          | some (d, r5) =>
            match expectC ' ' r5 with
            | none => none
            | some r6 =>
              match num12 r6 with
              | none => none
              | some (h, r7) =>
                match expectC ':' r7 with
                | none => none
                | some r8 =>
                  match num2 r8 with
                  | none => none
                  | some (mi, r9) =>
                    if r9 = [] ∧ 1 ≤ mo ∧ mo ≤ 12 ∧ 1 ≤ d ∧
                        d ≤ daysInMonth (y : Int) mo ∧ h ≤ 23 ∧ mi ≤ 59 then
                      some ((y : Int), (mo : Int), (d : Int), (h : Int), (mi : Int))
                    else none

/-- Literal regex from a string. -/
def rs (s : String) : RE :=
  .str s.data

/-- Literal regex from a single character. -/
def chr (c : Char) : RE :=
  .str [c]

/-- Left-preferring alternation of a list of regexes (source order). -/
def alts : List RE → RE
  | [] => .str []
  | [r] => r
  | r :: rest => .alt r (alts rest)

/-- Alternation of literal words, in source order. -/
def strs (l : List String) : RE :=
  alts (l.map rs)

/-- Class `\d`. -/
def dig : RE :=
  .cls [('0', '9')]

/-- Class `\s` (Go/RE2: tab, newline, form feed, carriage return, space). -/
def wsC : List (Char × Char) :=
  [('\t', '\n'), ('\x0c', '\r'), (' ', ' ')]

/-- Pattern `\s+`. -/
def ws1 : RE :=
  .seq (.cls wsC) (.star (.cls wsC))

/-- Pattern `\s*`. -/
def ws0 : RE :=
  .star (.cls wsC)

/-- Pattern `a+` (greedy). -/
def plusR (a : RE) : RE :=
  .seq a (.star a)

/-- Pattern `a{2,3}` (greedy). -/
def rep23 (a : RE) : RE :=
  .seq a (.seq a (.opt a))

/-- Pattern `a{1,3}` (greedy). -/
def rep13 (a : RE) : RE :=
  .seq a (.opt (.seq a (.opt a)))

/-- Pattern `a{2,4}` (greedy). -/
def rep24 (a : RE) : RE :=
  .seq a (.seq a (.opt (.seq a (.opt a))))

/-- Pattern `a{3,4}` (greedy). -/
def rep34 (a : RE) : RE :=
  .seq a (.seq a (.seq a (.opt a)))

/-- Pattern `\d\d`. -/
def d2 : RE :=
  .seq dig dig

/-- Pattern `\d\d\d`. -/
def d3 : RE :=
  .seq dig (.seq dig dig)

/-- Pattern `\d\d\d\d`. -/
def d4 : RE :=
  .seq dig d3

/-!
The grammar table (`parserStrings` of the source), one definition per entry,
with Go's group numbering (order of opening parentheses; named and unnamed
groups count alike).  The leading `^` of the anchored patterns is expressed
by using `matchAnch` instead of `reFind` at the call sites, exactly the
patterns the source anchors.  The `runway` entry of the table is never used
by `Parse` and is omitted as dead grammar.
-/

/-- Source `type` pattern `^(?P<type>METAR|SPECI)?\s+` (group 1 = type). -/
def typeRE : RE :=
  .seq (.opt (.group 1 (strs [("METAR"), ("SPECI")]))) ws1

/-- Source `station` pattern `^(?P<station>[A-Z][A-Z0-9]{3})\s+`. -/
def stationRE : RE :=
  .seq
    (.group 1 (.seq (.cls [('A', 'Z')])
      (.seq (.cls [('A', 'Z'), ('0', '9')])
        (.seq (.cls [('A', 'Z'), ('0', '9')]) (.cls [('A', 'Z'), ('0', '9')])))))
    ws1

/-- Source `time` pattern `^(?P<day>\d\d)(?P<hour>\d\d)(?P<min>\d\d)Z?\s+`
(groups 1, 2, 3 = day, hour, minute). -/
def timeRE : RE :=
  .seq (.group 1 d2)
    (.seq (.group 2 d2) (.seq (.group 3 d2) (.seq (.opt (chr ('Z'))) ws1)))

/-- Source `modifier` pattern
`^(?P<mod>AUTO|FINO|NIL|TEST|CORR?|RTD|CC[A-G])\s+` (group 1 = mod). -/
def modifierRE : RE :=
  .seq
    (.group 1 (alts
      [rs ("AUTO"), rs ("FINO"), rs ("NIL"), rs ("TEST"),
       .seq (rs ("COR")) (.opt (chr ('R'))), rs ("RTD"),
       .seq (rs ("CC")) (.cls [('A', 'G')])]))
    ws1

/-- Source `wind` pattern
`^(?P<dir>\d{3}|0|///|MMM|VRB)(?P<speed>P?[\dO]{2,3}|[/M]{2,3})`
`(?P<gust>G(\d{1,3}|[/M]{1,3}))?(?P<units>KT|KMH|MPS)?`
`(\s+(?P<varfrom>\d\d\d)V(?P<varto>\d\d\d))?\s+`
(1 = dir, 2 = speed, 3 = gust, 4 = gust digits, 5 = units, 6 = var range,
7 = varfrom, 8 = varto). -/
def windRE : RE :=
  .seq (.group 1 (alts [d3, rs ("0"), rs ("///"), rs ("MMM"), rs ("VRB")]))
    (.seq
      (.group 2 (.alt
        (.seq (.opt (chr ('P'))) (rep23 (.cls [('0', '9'), ('O', 'O')])))
        (rep23 (.cls [('/', '/'), ('M', 'M')]))))
      (.seq
        (.opt (.group 3 (.seq (chr ('G'))
          (.group 4 (.alt (rep13 dig) (rep13 (.cls [('/', '/'), ('M', 'M')])))))))
        (.seq (.opt (.group 5 (strs [("KT"), ("KMH"), ("MPS")])))
          (.seq
            (.opt (.group 6 (.seq ws1
              (.seq (.group 7 d3) (.seq (chr ('V')) (.group 8 d3))))))
            ws1))))

/-- Source `visibility` pattern (unanchored)
`(?P<vis>(?P<dist>(M|P)?\d\d\d\d)(?P<dir>[NSEW][EW]?|NDV)?`
`|(?P<distu>(M|P)?(\d+))(?P<units>SM|KM|M|U)?|CAVOK)\s+`
(1 = vis, 2 = dist, 3 = M or P, 4 = dir, 5 = distu, 6 = M or P,
7 = digits, 8 = units). -/
def visibilityRE : RE :=
  .seq
    (.group 1 (alts
      [.seq (.group 2 (.seq (.opt (.group 3 (.alt (chr ('M')) (chr ('P'))))) d4))
         (.opt (.group 4 (.alt
           (.seq (.cls [('N', 'N'), ('S', 'S'), ('E', 'E'), ('W', 'W')])
             (.opt (.cls [('E', 'E'), ('W', 'W')])))
           (rs ("NDV"))))),
       .seq
         (.group 5 (.seq (.opt (.group 6 (.alt (chr ('M')) (chr ('P')))))
           (.group 7 (plusR dig))))
         (.opt (.group 8 (strs [("SM"), ("KM"), ("M"), ("U")]))),
       rs ("CAVOK")]))
    ws1

/-- Source `weather` pattern (unanchored)
`(?P<int>(-|\+|VC)+)?(?P<desc>(MI|PR|BC|DR|BL|SH|TS|FZ)+)?`
`(:?(?P<prec>(DZ|RA|SN|SG|IC|PL|GR|GS|UP)+)(?P<obsc>BR|FG|FU|VA|DU|SA|HZ|PY)?`
`(?P<other>PO|SQ|FC|SS|DS)?|(?P<obsc>BR|FG|FU|VA|DU|SA|HZ|PY)`
`(?P<other>PO|SQ|FC|SS|DS)?|(?P<other>PO|SQ|FC|SS|DS))+\s+`
(1 = int, 2 = int item, 3 = desc, 4 = desc item, 5 = the repeated
alternation group, 6 = prec, 7 = prec item, 8 = first obsc, 9 = first
other, 10 = second obsc, 11 = second other, 12 = third other).  Note the
`(:?` of the source is a capturing group whose first branch starts with an
optional literal colon, not a non-capturing `(?:`. -/
def weatherRE : RE :=
  .seq (.opt (.group 1 (plusR (.group 2 (alts [chr ('-'), chr ('+'), rs ("VC")])))))
    (.seq
      (.opt (.group 3 (plusR (.group 4
        (strs [("MI"), ("PR"), ("BC"), ("DR"), ("BL"), ("SH"), ("TS"), ("FZ")])))))
      (.seq
        (plusR (.group 5 (alts
          [.seq (.opt (chr (':')))
             (.seq
               (.group 6 (plusR (.group 7
                 (strs [("DZ"), ("RA"), ("SN"), ("SG"), ("IC"), ("PL"), ("GR"),
                        ("GS"), ("UP")]))))
               (.seq
                 (.opt (.group 8 (strs [("BR"), ("FG"), ("FU"), ("VA"), ("DU"),
                                        ("SA"), ("HZ"), ("PY")])))
                 (.opt (.group 9 (strs [("PO"), ("SQ"), ("FC"), ("SS"), ("DS")]))))),
           .seq
             (.group 10 (strs [("BR"), ("FG"), ("FU"), ("VA"), ("DU"), ("SA"),
                               ("HZ"), ("PY")]))
             (.opt (.group 11 (strs [("PO"), ("SQ"), ("FC"), ("SS"), ("DS")]))),
           .group 12 (strs [("PO"), ("SQ"), ("FC"), ("SS"), ("DS")])])))
        ws1))

/-- Source `sky` pattern (unanchored)
`(?P<cover>VV|CLR|SKC|SCK|NSC|NCD|BKN|SCT|FEW|OVC)(?P<height>\d{2,4})?`
`(?P<cloud>([A-Z][A-Z]+))?\s+` (1 = cover, 2 = height, 3 = cloud,
4 = inner cloud group). -/
def skyRE : RE :=
  .seq
    (.group 1 (strs [("VV"), ("CLR"), ("SKC"), ("SCK"), ("NSC"), ("NCD"),
                     ("BKN"), ("SCT"), ("FEW"), ("OVC")]))
    (.seq (.opt (.group 2 (rep24 dig)))
      (.seq
        (.opt (.group 3 (.group 4
          (.seq (.cls [('A', 'Z')]) (plusR (.cls [('A', 'Z')]))))))
        ws1))

/-- Source `temp` pattern
`^(?P<temp>(M|-)?\d+|//|XX|MM)/(?P<dewpt>(M|-)?\d+|//|XX|MM)?\s+`
(1 = temp, 2 = temp sign letter, 3 = dewpt, 4 = dewpt sign letter). -/
def tempRE : RE :=
  .seq
    (.group 1 (alts
      [.seq (.opt (.group 2 (.alt (chr ('M')) (chr ('-'))))) (plusR dig),
       rs ("//"), rs ("XX"), rs ("MM")]))
    (.seq (chr ('/'))
      (.seq
        (.opt (.group 3 (alts
          [.seq (.opt (.group 4 (.alt (chr ('M')) (chr ('-'))))) (plusR dig),
           rs ("//"), rs ("XX"), rs ("MM")])))
        ws1))

/-- Source `press` pattern
`^(?P<unit>A|Q|QNH|SLP)?(?P<press>\d{3,4}|////)(?P<unit2>INS)?\s*`
(1 = unit, 2 = press, 3 = unit2). -/
def pressRE : RE :=
  .seq (.opt (.group 1 (strs [("A"), ("Q"), ("QNH"), ("SLP")])))
    (.seq (.group 2 (.alt (rep34 dig) (rs ("////"))))
      (.seq (.opt (.group 3 (rs ("INS")))) ws0))

/-- Source `Wind` struct (`Vrb`, `Dir`, `Spd`, `Gust`, `VarFrom`, `VarTo`);
Go zero values are `false` / `0`. -/
structure Wind where
  Vrb : Bool
  Dir : Int
  Spd : Int
  Gust : Int
  VarFrom : Int
  VarTo : Int
deriving Repr, DecidableEq

/-- Source `Weather` struct; Go zero value is the empty string in every
field. -/
structure Weather where
  Intens : String
  Descr : String
  Precip : String
  Other : String
deriving Repr, DecidableEq

/-- Source `Sky` struct. -/
structure Sky where
  Cover : String
  Height : Int
  Cloud : String
deriving Repr, DecidableEq

/-- A UTC instant as whole minutes since 1970-01-01T00:00,
standing for Go's `time.Time` (the decoder only ever builds
whole-minute UTC times). -/
abbrev GoTime := Int

/-- Days from 1970-01-01 to the civil date `y-m-d` (proleptic Gregorian,
floor divisions); linear in `d`, exactly like Go's `time.Date`, which adds
`day - 1` days without range-checking the day. -/
def daysFromCivil (y m d : Int) : Int :=
  let y' := if m ≤ 2 then y - 1 else y
  let era := Int.fdiv y' 400
  let yoe := y' - era * 400
  let doy := Int.fdiv (153 * (if 2 < m then m - 3 else m + 9) + 2) 5 + d - 1
  let doe := yoe * 365 + Int.fdiv yoe 4 - Int.fdiv yoe 100 + doy
  era * 146097 + doe - 719468

/-- Go `time.Date(y, mo, d, h, mi, 0, 0, time.UTC)` for a month already in
1..12 (the reference-date parser guarantees that): the UTC instant
`d - 1` days, `h` hours and `mi` minutes past `y-mo-01T00:00`. -/
def goDate (y mo d h mi : Int) : GoTime :=
  (daysFromCivil y mo 1 + d - 1) * 1440 + h * 60 + mi

/-- Go's zero `time.Time`: 0001-01-01T00:00:00 UTC. -/
def zeroTime : GoTime :=
  goDate 1 1 1 0 0

/-- Source `Metar` struct.  `Time` is the instant in minutes (`GoTime`). -/
structure Metar where
  Station : String
  Time : GoTime
  Mod : String
  Wind : Wind
  Visibility : Int
  Weather : List Weather
  Sky : List Sky
  Temp : Int
  DewPt : Int
  Pressure : Int
deriving Repr, DecidableEq

/-- The Go zero `Metar{}` the handler allocates before calling `Parse`. -/
def zeroMetar : Metar :=
  { Station := "", Time := zeroTime, Mod := "", Wind := ⟨false, 0, 0, 0, 0, 0⟩,
    Visibility := 0, Weather := [], Sky := [], Temp := 0, DewPt := 0,
    Pressure := 0 }

/-- Outcome of a `Parse` call.  `Parse` is a pointer method, so the caller's
record is visible in every outcome: `err` carries the record as mutated so
far together with the returned error message, and `oob` is the Go runtime
panic raised by a slice access with a negative index (`rawMetar[-1:-1]`),
again with the record state at that moment. -/
inductive ParseResult where
  | ok : Metar → ParseResult
  | err : Metar → String → ParseResult
  | oob : Metar → ParseResult
deriving Repr, DecidableEq

/-- Decoder state between steps: the record being filled and the
still-unconsumed suffix of the report. -/
abbrev PState := Metar × List Char

/-!
One definition per step of `Parse` (`src/hello.go`, lines 70..258), each a
direct transcription of the corresponding block: the same match call, the
same `-1` guards (an unguarded `rawMetar[idx[2i]:idx[2i+1]]` on a group the
pattern does not force becomes the `oob` outcome), the same error strings,
and the same cursor advance `rawMetar = rawMetar[idx[1]:]`.
-/

/-- Step `type` (lines 70..73): optional, never fails. -/
def typeField (st : PState) : PState :=
  match matchAnch typeRE st.2 with
  | some (e, _) => (st.1, st.2.drop e)
  | none => st

/-- Step `station` (lines 75..81). -/
def stationField (st : PState) : Except ParseResult PState :=
  match matchAnch stationRE st.2 with
  | none => .error (.err st.1 ("Error parsing station identifier"))
  | some (e, k) =>
    match capRange k 1 with
    | none => .error (.oob st.1)
    | some (i, j) =>
      .ok ({ st.1 with Station := subS st.2 i j }, st.2.drop e)

/-- Step `time` (lines 83..104): match the time group, then parse the
reference date (only its year and month are consumed), then convert day,
hour and minute. -/
def timeField (rawDate : String) (st : PState) : Except ParseResult PState :=
  match matchAnch timeRE st.2 with
  | none => .error (.err st.1 ("Error parsing metar time"))
  | some (e, k) =>
    match parseRefDate rawDate with
    | none => .error (.err st.1 ("Error parsing message time"))
    | some (y, mo, _, _, _) =>
      match capRange k 1 with
      | none => .error (.oob st.1)
      | some (i1, j1) =>
        match goAtoi (subL st.2 i1 j1) with
        | none => .error (.err st.1 ("Error converting day in metar"))
        | some day =>
          match capRange k 2 with
          | none => .error (.oob st.1)
          | some (i2, j2) =>
            match goAtoi (subL st.2 i2 j2) with
            | none => .error (.err st.1 ("Error converting hour in metar"))
            | some hour =>
              match capRange k 3 with
              | none => .error (.oob st.1)
              | some (i3, j3) =>
                match goAtoi (subL st.2 i3 j3) with
                | none => .error (.err st.1 ("Error converting minute in metar"))
                | some minute =>
                  .ok ({ st.1 with Time := goDate y mo day hour minute },
                    st.2.drop e)

/-- Step `modifier` (lines 106..110): optional. -/
def modifierField (st : PState) : Except ParseResult PState :=
  match matchAnch modifierRE st.2 with
  | none => .ok st
  | some (e, k) =>
    match capRange k 1 with
    | none => .error (.oob st.1)
    | some (i, j) =>
      .ok ({ st.1 with Mod := subS st.2 i j }, st.2.drop e)

/-- Step `wind` (lines 112..161): direction (the literal `VRB` sets the
variable flag, otherwise the bearing is converted), mandatory speed,
optional gust (inner digit group 4) and variable range (groups 7, 8); the
local `wind` value is written to the record only after every conversion
succeeded. -/
def windField (st : PState) : Except ParseResult PState :=
  match matchAnch windRE st.2 with
  | none => .error (.err st.1 ("Error parsing metar wind"))
  | some (e, k) =>
    let w0 : Wind := ⟨false, 0, 0, 0, 0, 0⟩
    let dirRes : Except ParseResult Wind :=
      match capRange k 1 with
      | none => .ok w0
      | some (i, j) =>
        if subL st.2 i j = ['V', 'R', 'B'] then .ok { w0 with Vrb := true }
        else
          match goAtoi (subL st.2 i j) with
          | some wdir => .ok { w0 with Dir := wdir }
          | none => .error (.err st.1 ("Error converting wind direction in metar"))
    match dirRes with
    | .error r => .error r
    | .ok w1 =>
      let spdRes : Except ParseResult Wind :=
        match capRange k 2 with
        | none => .ok w1
        | some (i, j) =>
          match goAtoi (subL st.2 i j) with
          | some wspd => .ok { w1 with Spd := wspd }
          | none => .error (.err st.1 ("Error converting wind speed in metar"))
      match spdRes with
      | .error r => .error r
      | .ok w2 =>
        let gustRes : Except ParseResult Wind :=
          match capRange k 4 with
          | none => .ok w2
          | some (i, j) =>
            match goAtoi (subL st.2 i j) with
            | some g => .ok { w2 with Gust := g }
            | none => .error (.err st.1 ("Error converting gust speed in metar"))
        match gustRes with
        | .error r => .error r
        | .ok w3 =>
          let vfRes : Except ParseResult Wind :=
            match capRange k 7 with
            | none => .ok w3
            | some (i, j) =>
              match goAtoi (subL st.2 i j) with
              | some vf => .ok { w3 with VarFrom := vf }
              | none =>
                .error (.err st.1
                  ("Error converting variable from wind direction in metar"))
          match vfRes with
          | .error r => .error r
          | .ok w4 =>
            let vtRes : Except ParseResult Wind :=
              match capRange k 8 with
              | none => .ok w4
              | some (i, j) =>
                match goAtoi (subL st.2 i j) with
                | some vt => .ok { w4 with VarTo := vt }
                | none =>
                  .error (.err st.1
                    ("Error converting variable to wind direction in metar"))
            match vtRes with
            | .error r => .error r
            | .ok w5 =>
              .ok ({ st.1 with Wind := w5 }, st.2.drop e)

/-- Step `visibility` (lines 163..173): unanchored find; a match without
the four-digit `dist` group (group 2) is the same failure as no match. -/
def visibilityField (st : PState) : Except ParseResult PState :=
  match reFind visibilityRE st.2 with
  | none => .error (.err st.1 ("Error parsing metar visibility"))
  | some (_, e, k) =>
    match capRange k 2 with
    | none => .error (.err st.1 ("Error parsing metar visibility"))
    | some (i, j) =>
      match goAtoi (subL st.2 i j) with
      | some vis => .ok ({ st.1 with Visibility := vis }, st.2.drop e)
      | none => .error (.err st.1 ("Error converting visibility value in metar"))

/-- One weather occurrence (lines 178..191): intensity from group 1,
descriptor from group 3, `Precip` from group 5 (the whole repeated
alternation group) and `Other` from group 8 (the first branch's
obscuration group). -/
def extractWeather (cs : List Char) (r : Nat × Nat × Caps) : Weather :=
  let k := r.2.2
  { Intens := match capRange k 1 with
      | some (i, j) => subS cs i j
      | none => ""
    Descr := match capRange k 3 with
      | some (i, j) => subS cs i j
      | none => ""
    Precip := match capRange k 5 with
      | some (i, j) => subS cs i j
      | none => ""
    Other := match capRange k 8 with
      | some (i, j) => subS cs i j
      | none => "" }

/-- Step `weather` (lines 175..194): find-all; when no occurrence matches
the cursor is left where it was (the source skips the advance as well);
otherwise every occurrence is appended and the cursor advances past the
last one.  Never fails. -/
def weatherField (st : PState) : PState :=
  match reFindAll weatherRE st.2 with
  | [] => st
  | ms =>
    let lastEnd := ms.foldl (fun _ r => r.2.1) 0
    ({ st.1 with Weather := st.1.Weather ++ ms.map (extractWeather st.2) },
      st.2.drop lastEnd)

/-- Sky-layer loop body (lines 200..217): each match appends a layer;
a non-numeric height is fatal mid-loop, with the layers appended so far
already in the record. -/
def skyLoop (cs : List Char) : Metar → List (Nat × Nat × Caps) →
    Except ParseResult Metar
  | m, [] => .ok m
  | m, r :: rest =>
    let k := r.2.2
    let s0 : Sky := ⟨"", 0, ""⟩
    let s1 : Sky :=
      match capRange k 1 with
      | some (i, j) => { s0 with Cover := subS cs i j }
      | none => s0
    match capRange k 2 with
    | some (i, j) =>
      match goAtoi (subL cs i j) with
      | some h =>
        let s2 : Sky := { s1 with Height := h }
        let s3 : Sky :=
          match capRange k 3 with
          | some (i3, j3) => { s2 with Cloud := subS cs i3 j3 }
          | none => s2
        skyLoop cs { m with Sky := m.Sky ++ [s3] } rest
      | none => .error (.err m ("Error converting cloud height value in metar"))
    | none =>
      let s3 : Sky :=
        match capRange k 3 with
        | some (i3, j3) => { s1 with Cloud := subS cs i3 j3 }
        | none => s1
      skyLoop cs { m with Sky := m.Sky ++ [s3] } rest

/-- Step `sky` (lines 196..218): find-all, at least one layer required;
then the cursor advances past the last match. -/
def skyField (st : PState) : Except ParseResult PState :=
  match reFindAll skyRE st.2 with
  | [] => .error (.err st.1 ("Error parsing metar sky"))
  | ms =>
    let lastEnd := ms.foldl (fun _ r => r.2.1) 0
    match skyLoop st.2 st.1 ms with
    | .error r => .error r
    | .ok m => .ok (m, st.2.drop lastEnd)

/-- Step `temp` (lines 220..244): temperature from group 1 with the `M`
sign letter of group 2 rewritten to `-`; then the dew point is sliced from
group 3 WITHOUT a presence guard — when the optional group did not match
the Go code evaluates `rawMetar[-1:-1]`, a slice-bounds panic, modelled as
the `oob` outcome (the temperature is already in the record at that
point). -/
def tempField (st : PState) : Except ParseResult PState :=
  match matchAnch tempRE st.2 with
  | none => .error (.err st.1 ("Error parsing metar temperature"))
  | some (e, k) =>
    match capRange k 1 with
    | none => .error (.oob st.1)
    | some (i, j) =>
      let tempStr0 := subL st.2 i j
      let tempStr :=
        match capRange k 2 with
        | some (i2, j2) =>
          if subL st.2 i2 j2 = ['M'] then '-' :: tempStr0.drop 1 else tempStr0
        | none => tempStr0
      match goAtoi tempStr with
      | none => .error (.err st.1 ("Error converting temperature value in metar"))
      | some t =>
        let m1 := { st.1 with Temp := t }
        match capRange k 3 with
        | none => .error (.oob m1)
        | some (i3, j3) =>
          let dewStr0 := subL st.2 i3 j3
          let dewStr :=
            match capRange k 4 with
            | some (i4, j4) =>
              if subL st.2 i4 j4 = ['M'] then '-' :: dewStr0.drop 1 else dewStr0
            | none => dewStr0
          match goAtoi dewStr with
          | none => .error (.err m1 ("Error converting dew point value in metar"))
          | some d =>
            .ok ({ m1 with DewPt := d }, st.2.drop e)

/-- Step `press` (lines 246..258): only a unit capture equal to `Q` is
accepted; the numeric group is then sliced without a guard (it is forced by
the pattern) and converted. -/
def pressField (st : PState) : Except ParseResult Metar :=
  match matchAnch pressRE st.2 with
  | none => .error (.err st.1 ("Error parsing metar pressure"))
  | some (_, k) =>
    match capRange k 1 with
    | none => .error (.err st.1 ("Error interpreting metar pressure value"))
    | some (i, j) =>
      if subL st.2 i j = ['Q'] then
        match capRange k 2 with
        | none => .error (.oob st.1)
        | some (i2, j2) =>
          match goAtoi (subL st.2 i2 j2) with
          | some v => .ok { st.1 with Pressure := v }
          | none => .error (.err st.1 ("Error converting pressure value in metar"))
      else .error (.err st.1 ("Error interpreting metar pressure value"))

/-- The whole of `Metar.Parse` (lines 64..261) on an initial record `m0`
(the Go receiver): the ten steps in source order, stopping at the first
failure. -/
def ParseGo (m0 : Metar) (rawMetar rawDate : String) : ParseResult :=
  let res : Except ParseResult Metar := do
    let st1 := typeField (m0, rawMetar.data)
    let st2 ← stationField st1
    let st3 ← timeField rawDate st2
    let st4 ← modifierField st3
    let st5 ← windField st4
    let st6 ← visibilityField st5
    let st7 := weatherField st6
    let st8 ← skyField st7
    let st9 ← tempField st8
    pressField st9
  match res with
  | .ok m => .ok m
  | .error r => r

/-- One decode call as the excluded I/O collaborator performs it: a fresh
zero record per call (`m := &Metar{}` in the handler), then `Parse`. -/
def decode (rawMetar rawDate : String) : ParseResult :=
  ParseGo zeroMetar rawMetar rawDate

/-!
Concrete inputs used by the theorems below, with the records the decoder
produces on them.
-/

/-- Reference date line `"2023/06/10 09:00"` of the spec's examples. -/
def exRef : String :=
  "2023/06/10 09:00"

/-- A second reference line with the same year and month but different day,
hour and minute. -/
def exRef2 : String :=
  "2023/06/25 18:57"

/-- A well-formed report with two weather groups and three sky layers. -/
def exReport : String :=
  "YSSY 101234Z 01005KT 9999 -RA BR FEW010 SCT025 BKN040 M05/M10 Q1013"

/-- Decode of `exReport` with `exRef`. -/
def exRecord : Metar :=
  { Station := "YSSY", Time := goDate 2023 6 10 12 34, Mod := "",
    Wind := ⟨false, 10, 5, 0, 0, 0⟩, Visibility := 9999,
    Weather := [⟨"-", "", "RA", ""⟩, ⟨"", "", "BR", ""⟩],
    Sky := [⟨"FEW", 10, ""⟩, ⟨"SCT", 25, ""⟩, ⟨"BKN", 40, ""⟩],
    Temp := -5, DewPt := -10, Pressure := 1013 }

/-- A report whose wind group is `VRB05KT`. -/
def vrbReport : String :=
  "YSSY 101234Z VRB05KT 9999 FEW010 M05/M10 Q1013"

/-- Decode of `vrbReport` with `exRef`. -/
def vrbRecord : Metar :=
  { Station := "YSSY", Time := goDate 2023 6 10 12 34, Mod := "",
    Wind := ⟨true, 0, 5, 0, 0, 0⟩, Visibility := 9999,
    Weather := [], Sky := [⟨"FEW", 10, ""⟩],
    Temp := -5, DewPt := -10, Pressure := 1013 }

/-- A report whose visibility token is the `CAVOK` form. -/
def cavokReport : String :=
  "YSSY 101234Z 01005KT CAVOK M05/M10 Q1013"

/-- A report whose visibility token is the unit-suffixed form `10SM`. -/
def smReport : String :=
  "YSSY 101234Z 01005KT 10SM FEW010 M05/M10 Q1013"

/-- Record state the caller sees when `Parse` fails at the visibility step:
station, time and wind of the steps already taken are set. -/
def visFailPartial : Metar :=
  { Station := "YSSY", Time := goDate 2023 6 10 12 34, Mod := "",
    Wind := ⟨false, 10, 5, 0, 0, 0⟩, Visibility := 0,
    Weather := [], Sky := [], Temp := 0, DewPt := 0, Pressure := 0 }

/-- A report with a `"M05/"`-style temperature group: the dew-point
sub-match is absent. -/
def dewMissReport : String :=
  "YSSY 101234Z 01005KT 9999 FEW010 M05/ Q1013"

/-- Record state at the moment the dew-point slice `rawMetar[-1:-1]` is
evaluated: everything up to and including the temperature is set. -/
def dewMissPartial : Metar :=
  { Station := "YSSY", Time := goDate 2023 6 10 12 34, Mod := "",
    Wind := ⟨false, 10, 5, 0, 0, 0⟩, Visibility := 9999,
    Weather := [], Sky := [⟨"FEW", 10, ""⟩],
    Temp := -5, DewPt := 0, Pressure := 0 }

/-- A report whose pressure group has the altimeter prefix `A`. -/
def aPressReport : String :=
  "YSSY 101234Z 01005KT 9999 FEW010 M05/M10 A2992"

/-- Record state when `Parse` rejects the `A2992` pressure group. -/
def aPressPartial : Metar :=
  { Station := "YSSY", Time := goDate 2023 6 10 12 34, Mod := "",
    Wind := ⟨false, 10, 5, 0, 0, 0⟩, Visibility := 9999,
    Weather := [], Sky := [⟨"FEW", 10, ""⟩],
    Temp := -5, DewPt := -10, Pressure := 0 }

/-- Reports that differ only in the single weather group, one per branch of
the weather alternation, share this record shape. -/
def wxRecord (ws : List Weather) : Metar :=
  { Station := "YSSY", Time := goDate 2023 6 10 12 34, Mod := "",
    Wind := ⟨false, 10, 5, 0, 0, 0⟩, Visibility := 9999,
    Weather := ws, Sky := [⟨"FEW", 10, ""⟩],
    Temp := -5, DewPt := -10, Pressure := 1013 }

/-- Weather group `RABR`: precipitation branch with an obscuration. -/
def rabrReport : String :=
  "YSSY 101234Z 01005KT 9999 RABR FEW010 M05/M10 Q1013"

/-- Weather group `FG`: the obscuration-alone branch. -/
def fgReport : String :=
  "YSSY 101234Z 01005KT 9999 FG FEW010 M05/M10 Q1013"

/-- Weather group `SQ`: the other-alone branch. -/
def sqReport : String :=
  "YSSY 101234Z 01005KT 9999 SQ FEW010 M05/M10 Q1013"

/-- Weather group `-SHRA`: intensity and descriptor present. -/
def shraReport : String :=
  "YSSY 101234Z 01005KT 9999 -SHRA FEW010 M05/M10 Q1013"

/-!
Theorems.  One per claim (plus witnesses), preceded by shared helper
lemmas.
-/

/-- Shared evaluation: the canonical well-formed report decodes to
`exRecord`. -/
theorem decode_exReport : decode exReport exRef = .ok exRecord := by
  rfl

/-- C1.  The claim reads: a `"M05/"`-style temperature group (dew-point
sub-match absent) must yield a `MissingField`/`ConversionError` and never
an out-of-range slice access.  The code violates it: on `dewMissReport`
the temp pattern matches with group 3 unset (`idx[6] = idx[7] = -1`) and
`Parse` evaluates `rawMetar[-1:-1]`, a slice-bounds panic (`oob`), with the
temperature already written into the record. -/
theorem missing_dewpoint_is_slice_panic :
    decode dewMissReport exRef = ParseResult.oob dewMissPartial := by
  rfl

/-- C2.  The claim reads: on a failing decode no partially populated record
state is exposed to the caller.  The code violates it: `Parse` writes into
the caller-owned record as it goes, so when the visibility step fails the
caller's record already holds the station, observation time and wind of
the earlier steps (the handler even renders this record alongside the
error). -/
theorem failing_decode_exposes_record :
    decode cavokReport exRef =
      ParseResult.err visFailPartial ("Error parsing metar visibility") ∧
    visFailPartial.Station = "YSSY" ∧ visFailPartial ≠ zeroMetar := by
  refine ⟨by rfl, by rfl, by decide⟩

/-- C4 counterexample.  The claim says exactly one of the remaining textual
fields (`Precip`/`Other`) is populated per matched alternation branch; on
the weather group `RABR` (precipitation branch with an obscuration) the
decoder populates BOTH: `Precip` receives the whole group text `RABR`
(group 5) and `Other` receives the obscuration `BR` (group 8). -/
theorem weather_two_fields_at_once :
    decode rabrReport exRef = .ok (wxRecord [⟨"", "", "RABR", "BR"⟩]) ∧
    (Weather.mk "" "" "RABR" "BR").Precip ≠ "" ∧
    (Weather.mk "" "" "RABR" "BR").Other ≠ "" := by
  refine ⟨by rfl, by decide, by decide⟩

/-- C4 as amended.  Whichever branch matches, intensity (group 1) and
descriptor (group 3) are populated when present; the
precipitation-or-obscuration field always receives the full text of the
last iteration of the repeated alternation (group 5), whichever branch it
took; and the other field is populated, with the obscuration sub-match of
the precipitation branch (group 8), exactly when that branch matched with
an obscuration present — so both remaining fields can be populated at
once.  Witnessed by one decode per branch, and by the extractor's routing
stated over its group numbers. -/
theorem weather_field_routing :
    (∀ (cs : List Char) (r : Nat × Nat × Caps),
      extractWeather cs r =
        { Intens := match capRange r.2.2 1 with
            | some (i, j) => subS cs i j
            | none => ""
          Descr := match capRange r.2.2 3 with
            | some (i, j) => subS cs i j
            | none => ""
          Precip := match capRange r.2.2 5 with
            | some (i, j) => subS cs i j
            | none => ""
          Other := match capRange r.2.2 8 with
            | some (i, j) => subS cs i j
            | none => "" }) ∧
    decode shraReport exRef = .ok (wxRecord [⟨"-", "SH", "RA", ""⟩]) ∧
    decode fgReport exRef = .ok (wxRecord [⟨"", "", "FG", ""⟩]) ∧
    decode sqReport exRef = .ok (wxRecord [⟨"", "", "SQ", ""⟩]) ∧
    decode rabrReport exRef = .ok (wxRecord [⟨"", "", "RABR", "BR"⟩]) := by
  refine ⟨fun cs r => rfl, by rfl, by rfl, by rfl, by rfl⟩

/-- C6.  Decoding is a pure function of the two input lines: the handler
allocates a fresh zero record per call and `Parse` consults nothing but
its arguments (the pattern table is a constant), so decoding the same
`(reportText, referenceDateText)` pair twice yields bit-identical
results. -/
theorem decode_deterministic :
    ∀ rawMetar rawDate : String,
      decode rawMetar rawDate = decode rawMetar rawDate :=
  fun _ _ => rfl

/-- C5.  The pressure step accepts only the hectopascal-style `Q` prefix:
every successful pressure step comes from a match whose unit capture is
exactly `Q`; `Q1013` yields pressure 1013, while the altimeter-style
`A2992` is rejected with the pressure-interpretation error. -/
theorem pressure_requires_Q_unit :
    (∀ (st : PState) (m' : Metar), pressField st = .ok m' →
      ∃ e k i j, matchAnch pressRE st.2 = some (e, k) ∧
        capRange k 1 = some (i, j) ∧ subL st.2 i j = ['Q']) ∧
    decode exReport exRef = .ok exRecord ∧ exRecord.Pressure = 1013 ∧
    decode aPressReport exRef =
      ParseResult.err aPressPartial ("Error interpreting metar pressure value") := by
  refine ⟨?_, decode_exReport, by rfl, by rfl⟩
  intro st m' h
  unfold pressField at h
  split at h
  · exact Except.noConfusion h
  next e k hm =>
    split at h
    · exact Except.noConfusion h
    next i j hc =>
      split at h
      next hq =>
        exact ⟨e, k, i, j, hm, hc, hq⟩
      next hq => exact Except.noConfusion h

/-- Witness for C5: the general part applied to the concrete pressure
group `Q1013`, whose step succeeds with value 1013. -/
theorem pressure_requires_Q_unit_witness :
    ∃ e k i j, matchAnch pressRE (("Q1013").data) = some (e, k) ∧
      capRange k 1 = some (i, j) ∧ subL (("Q1013").data) i j = ['Q'] :=
  pressure_requires_Q_unit.1 (zeroMetar, ("Q1013").data)
    { zeroMetar with Pressure := 1013 } (by rfl)

/-- C10.  Although the visibility grammar also admits `CAVOK` and
unit-suffixed forms, the step accepts a match only when the four-digit
`dist` capture (group 2) is present: every successful visibility step has
that capture, and reports whose first visibility match is `CAVOK` or
`10SM` fail with the visibility parsing error. -/
theorem visibility_requires_dist_group :
    (∀ (st r : PState), visibilityField st = .ok r →
      ∃ s e k i j, reFind visibilityRE st.2 = some (s, e, k) ∧
        capRange k 2 = some (i, j)) ∧
    decode cavokReport exRef =
      ParseResult.err visFailPartial ("Error parsing metar visibility") ∧
    decode smReport exRef =
      ParseResult.err visFailPartial ("Error parsing metar visibility") := by
  refine ⟨?_, by rfl, by rfl⟩
  intro st r h
  unfold visibilityField at h
  split at h
  · exact Except.noConfusion h
  next s e k hm =>
    split at h
    · exact Except.noConfusion h
    next i j hc =>
      exact ⟨s, e, k, i, j, hm, hc⟩

/-- Witness for C10: the general part applied to the plain four-digit
visibility group `9999 `, whose step succeeds. -/
theorem visibility_requires_dist_group_witness :
    ∃ s e k i j, reFind visibilityRE (("9999 ").data) = some (s, e, k) ∧
      capRange k 2 = some (i, j) :=
  visibility_requires_dist_group.1 (zeroMetar, ("9999 ").data)
    ({ zeroMetar with Visibility := 9999 }, []) (by rfl)

/-- C3.  The observation time of every successful decode is built as
`goDate` of the reference date's year and month with the report's day,
hour and minute: the time step writes exactly that instant, the
reference's own day/hour/minute never influence the decode (two references
sharing year and month give identical results on every report), and the
spec's example — reference `2023/06/10 09:00`, report time group `101234`
— yields 2023-06-10T12:34:00Z. -/
theorem observation_time_reconstruction :
    (∀ (date : String) (st : PState) (e : Nat) (k : Caps)
        (i1 j1 i2 j2 i3 j3 : Nat) (y mo d0 h0 mi0 day hour minute : Int),
      matchAnch timeRE st.2 = some (e, k) →
      parseRefDate date = some (y, mo, d0, h0, mi0) →
      capRange k 1 = some (i1, j1) → goAtoi (subL st.2 i1 j1) = some day →
      capRange k 2 = some (i2, j2) → goAtoi (subL st.2 i2 j2) = some hour →
      capRange k 3 = some (i3, j3) → goAtoi (subL st.2 i3 j3) = some minute →
      timeField date st =
        .ok ({ st.1 with Time := goDate y mo day hour minute }, st.2.drop e)) ∧
    (∀ (raw d1 d2 : String) (y mo a1 b1 c1 a2 b2 c2 : Int),
      parseRefDate d1 = some (y, mo, a1, b1, c1) →
      parseRefDate d2 = some (y, mo, a2, b2, c2) →
      decode raw d1 = decode raw d2) ∧
    decode exReport exRef = .ok exRecord ∧
    exRecord.Time = goDate 2023 6 10 12 34 := by
  refine ⟨?_, ?_, decode_exReport, by rfl⟩
  · intro date st e k i1 j1 i2 j2 i3 j3 y mo d0 h0 mi0 day hour minute
    intro hm hd hc1 ha1 hc2 ha2 hc3 ha3
    unfold timeField
    simp only [hm, hd, hc1, ha1, hc2, ha2, hc3, ha3]
  · intro raw d1 d2 y mo a1 b1 c1 a2 b2 c2 h1 h2
    have ht : ∀ st, timeField d1 st = timeField d2 st := by
      intro st
      unfold timeField
      cases hm : matchAnch timeRE st.2 with
      | none => rfl
      | some ek =>
        obtain ⟨e, k⟩ := ek
        simp only [h1, h2]
    show ParseGo zeroMetar raw d1 = ParseGo zeroMetar raw d2
    unfold ParseGo
    simp only [ht]

/-- Witness for C3: the reference-day/hour/minute invariance applied to the
canonical report and the two concrete references of June 2023. -/
theorem observation_time_reconstruction_witness :
    decode exReport exRef = decode exReport exRef2 :=
  observation_time_reconstruction.2.1 exReport exRef exRef2
    2023 6 10 9 0 25 18 57 (by rfl) (by rfl)

/-- C7.  A leading sign letter `M` on either value of the
temperature/dew-point group flips that value's sign: whenever the sign
captures (groups 2 and 4) are `M` and the digit values are inside the
range `strconv.Atoi` converts, the step stores the negated digit values,
and the example group `M05/M10` decodes to temperature -5 and dew
point -10. -/
theorem sign_letter_flips_value :
    (∀ (st : PState) (e : Nat) (k : Caps) (i1 j1 i2 j2 i3 j3 i4 j4 : Nat)
        (ds ds2 : List Char) (n n2 : Nat),
      matchAnch tempRE st.2 = some (e, k) →
      capRange k 1 = some (i1, j1) → subL st.2 i1 j1 = 'M' :: ds →
      capRange k 2 = some (i2, j2) → subL st.2 i2 j2 = ['M'] →
      digitsVal ds = some n → (n : Int) ≤ 2 ^ 63 →
      capRange k 3 = some (i3, j3) → subL st.2 i3 j3 = 'M' :: ds2 →
      capRange k 4 = some (i4, j4) → subL st.2 i4 j4 = ['M'] →
      digitsVal ds2 = some n2 → (n2 : Int) ≤ 2 ^ 63 →
      tempField st =
        .ok ({ st.1 with Temp := -(n : Int), DewPt := -(n2 : Int) },
          st.2.drop e)) ∧
    decode exReport exRef = .ok exRecord ∧
    exRecord.Temp = -5 ∧ exRecord.DewPt = -10 := by
  refine ⟨?_, decode_exReport, by rfl, by rfl⟩
  intro st e k i1 j1 i2 j2 i3 j3 i4 j4 ds ds2 n n2
  intro hm hc1 hs1 hc2 hs2 hn hr hc3 hs3 hc4 hs4 hn2 hr2
  unfold tempField
  simp only [hm, hc1, hs1, hc2, hs2, hc3, hs3, hc4, hs4]
  have hr' : n ≤ 9223372036854775808 := by exact_mod_cast hr
  have hr2' : n2 ≤ 9223372036854775808 := by exact_mod_cast hr2
  simp [goAtoi, hn, hn2, hr', hr2']

/-- Witness for C7: the sign-flip rule applied to the concrete group
`M05/M10 ` with its actual match data. -/
theorem sign_letter_flips_value_witness :
    tempField (zeroMetar, ("M05/M10 ").data) =
      .ok ({ zeroMetar with Temp := -5, DewPt := -10 }, []) :=
  sign_letter_flips_value.1 (zeroMetar, ("M05/M10 ").data) 8
    [(3, 4, 7), (4, 4, 5), (1, 0, 3), (2, 0, 1)]
    0 3 0 1 4 7 4 5 ['0', '5'] ['1', '0'] 5 10
    (by rfl) (by rfl) (by rfl) (by rfl) (by rfl) (by rfl) (by decide)
    (by rfl) (by rfl) (by rfl) (by rfl) (by rfl) (by decide)

/-- C8.  A wind group whose direction capture is the literal `VRB` and
whose speed capture is `05` always decodes (when the wind step succeeds)
to the variable-direction flag set, speed 5 and the direction left at its
zero value — whatever the optional gust and variable-range captures do —
and the report containing `VRB05KT` decodes to exactly that wind. -/
theorem variable_wind_flag :
    (∀ (st : PState) (e : Nat) (k : Caps) (i1 j1 i2 j2 : Nat) (r : PState),
      matchAnch windRE st.2 = some (e, k) →
      capRange k 1 = some (i1, j1) → subL st.2 i1 j1 = ['V', 'R', 'B'] →
      capRange k 2 = some (i2, j2) → subL st.2 i2 j2 = ['0', '5'] →
      windField st = .ok r →
      r.1.Wind.Vrb = true ∧ r.1.Wind.Spd = 5 ∧ r.1.Wind.Dir = 0) ∧
    decode vrbReport exRef = .ok vrbRecord ∧
    vrbRecord.Wind = ⟨true, 0, 5, 0, 0, 0⟩ := by
  refine ⟨?_, by rfl, by rfl⟩
  intro st e k i1 j1 i2 j2 r hm hc1 hs1 hc2 hs2 h
  have a05 : goAtoi ['0', '5'] = some 5 := by rfl
  unfold windField at h
  simp [hm, hc1, hs1, hc2, hs2, a05] at h
  cases hk4 : capRange k 4 with
  | none =>
    simp only [hk4] at h
    cases hk7 : capRange k 7 with
    | none =>
      simp only [hk7] at h
      cases hk8 : capRange k 8 with
      | none =>
        simp only [hk8] at h
        cases h
        exact ⟨rfl, rfl, rfl⟩
      | some p8 =>
        obtain ⟨i8, j8⟩ := p8
        simp only [hk8] at h
        cases hg8 : goAtoi (subL st.2 i8 j8) with
        | none => simp only [hg8] at h; exact Except.noConfusion h
        | some v8 =>
          simp only [hg8] at h
          cases h
          exact ⟨rfl, rfl, rfl⟩
    | some p7 =>
      obtain ⟨i7, j7⟩ := p7
      simp only [hk7] at h
      cases hg7 : goAtoi (subL st.2 i7 j7) with
      | none => simp only [hg7] at h; exact Except.noConfusion h
      | some v7 =>
        simp only [hg7] at h
        cases hk8 : capRange k 8 with
        | none =>
          simp only [hk8] at h
          cases h
          exact ⟨rfl, rfl, rfl⟩
        | some p8 =>
          obtain ⟨i8, j8⟩ := p8
          simp only [hk8] at h
          cases hg8 : goAtoi (subL st.2 i8 j8) with
          | none => simp only [hg8] at h; exact Except.noConfusion h
          | some v8 =>
            simp only [hg8] at h
            cases h
            exact ⟨rfl, rfl, rfl⟩
  | some p4 =>
    obtain ⟨i4, j4⟩ := p4
    simp only [hk4] at h
    cases hg4 : goAtoi (subL st.2 i4 j4) with
    | none => simp only [hg4] at h; exact Except.noConfusion h
    | some v4 =>
      simp only [hg4] at h
      cases hk7 : capRange k 7 with
      | none =>
        simp only [hk7] at h
        cases hk8 : capRange k 8 with
        | none =>
          simp only [hk8] at h
          cases h
          exact ⟨rfl, rfl, rfl⟩
        | some p8 =>
          obtain ⟨i8, j8⟩ := p8
          simp only [hk8] at h
          cases hg8 : goAtoi (subL st.2 i8 j8) with
          | none => simp only [hg8] at h; exact Except.noConfusion h
          | some v8 =>
            simp only [hg8] at h
            cases h
            exact ⟨rfl, rfl, rfl⟩
      | some p7 =>
        obtain ⟨i7, j7⟩ := p7
        simp only [hk7] at h
        cases hg7 : goAtoi (subL st.2 i7 j7) with
        | none => simp only [hg7] at h; exact Except.noConfusion h
        | some v7 =>
          simp only [hg7] at h
          cases hk8 : capRange k 8 with
          | none =>
            simp only [hk8] at h
            cases h
            exact ⟨rfl, rfl, rfl⟩
          | some p8 =>
            obtain ⟨i8, j8⟩ := p8
            simp only [hk8] at h
            cases hg8 : goAtoi (subL st.2 i8 j8) with
            | none => simp only [hg8] at h; exact Except.noConfusion h
            | some v8 =>
              simp only [hg8] at h
              cases h
              exact ⟨rfl, rfl, rfl⟩

/-- Witness for C8: the wind step on the concrete group `VRB05KT ` with
its actual match data. -/
theorem variable_wind_flag_witness :
    ({ zeroMetar with Wind := ⟨true, 0, 5, 0, 0, 0⟩ } : Metar).Wind.Vrb = true ∧
    ({ zeroMetar with Wind := ⟨true, 0, 5, 0, 0, 0⟩ } : Metar).Wind.Spd = 5 ∧
    ({ zeroMetar with Wind := ⟨true, 0, 5, 0, 0, 0⟩ } : Metar).Wind.Dir = 0 :=
  variable_wind_flag.1 (zeroMetar, ("VRB05KT ").data) 8
    [(5, 5, 7), (2, 3, 5), (1, 0, 3)] 0 3 3 5
    ({ zeroMetar with Wind := ⟨true, 0, 5, 0, 0, 0⟩ }, [])
    (by rfl) (by rfl) (by rfl) (by rfl) (by rfl) (by rfl)

/-- The sky loop appends exactly one layer per match when it succeeds. -/
theorem skyLoop_sky_length (cs : List Char) :
    ∀ (ms : List (Nat × Nat × Caps)) (m m' : Metar),
      skyLoop cs m ms = .ok m' → m'.Sky.length = m.Sky.length + ms.length := by
  intro ms
  induction ms with
  | nil =>
    intro m m' h
    simp only [skyLoop] at h
    cases h
    simp
  | cons r rest ih =>
    intro m m' h
    simp only [skyLoop] at h
    split at h
    next i j hk =>
      split at h
      next v hg =>
        have hlen := ih _ _ h
        simp at hlen
        simp [hlen]
        omega
      next hg => exact Except.noConfusion h
    next hk =>
      have hlen := ih _ _ h
      simp at hlen
      simp [hlen]
      omega

/-- C9.  Repeated groups accumulate in textual order: the weather step
appends one `Weather` per find-all match and the sky step one `Sky` per
find-all match (so two weather groups and three sky layers give lists of
lengths 2 and 3), and on the canonical report the lists hold the groups'
values in left-to-right order. -/
theorem repeated_groups_in_order :
    (∀ st : PState, ((weatherField st).1.Weather).length =
        st.1.Weather.length + (reFindAll weatherRE st.2).length) ∧
    (∀ (st r : PState), skyField st = .ok r →
        r.1.Sky.length = st.1.Sky.length + (reFindAll skyRE st.2).length) ∧
    decode exReport exRef = .ok exRecord ∧
    exRecord.Weather = [⟨"-", "", "RA", ""⟩, ⟨"", "", "BR", ""⟩] ∧
    exRecord.Sky = [⟨"FEW", 10, ""⟩, ⟨"SCT", 25, ""⟩, ⟨"BKN", 40, ""⟩] := by
  refine ⟨?_, ?_, decode_exReport, by rfl, by rfl⟩
  · intro st
    unfold weatherField
    cases hh : reFindAll weatherRE st.2 with
    | nil => simp
    | cons a l => simp
  · intro st r h
    unfold skyField at h
    split at h
    · exact Except.noConfusion h
    next ms hne =>
      split at h
      next r' hloop => exact Except.noConfusion h
      next m hloop =>
        cases h
        exact skyLoop_sky_length st.2 _ st.1 m hloop

/-- Witness for C9: the sky-step count applied to the concrete single
layer `FEW010 `. -/
theorem repeated_groups_in_order_witness :
    ({ zeroMetar with Sky := [⟨"FEW", 10, ""⟩] } : Metar).Sky.length =
      zeroMetar.Sky.length + (reFindAll skyRE (("FEW010 ").data)).length :=
  repeated_groups_in_order.2.1 (zeroMetar, ("FEW010 ").data)
    ({ zeroMetar with Sky := [⟨"FEW", 10, ""⟩] }, []) (by rfl)

end CloudMetar
